import Mathlib

/-!
Verification of the AEMET-OpenData client library core logic.

Shallow embedding of `src/aemet_opendata/station.py` and
`src/aemet_opendata/interface.py`:

* Python floats are modelled as rationals (`ℚ`), except for the geographic
  distance backends, which are modelled over the reals.
* `datetime` instants are modelled as integers (`ℤ`).  `astimezone` changes
  only the representation of an aware datetime, never the instant it denotes,
  and aware datetimes compare by instant, so all datetime comparisons in the
  source are comparisons of these integers.  `parse_api_timestamp` (from
  `helpers.py`, which is not part of the sources) maps the API timestamp
  string to such an instant; samples in the model carry the parsed instant
  directly.
* A station sample dictionary is modelled as a record carrying every key the
  code reads; optional presence of the sea-level pressure key is an
  `Option`.
* Mutation of `Station` attributes is modelled by functional record update.
-/

/-- Timezone value.  Modelled from the spec: "timezone — derived once from
coordinate" — the helper `timezone_from_coords` lives in `helpers.py`, which
is not among the sources, so the timezone is represented abstractly by the
coordinate it was derived from. -/
structure ZoneInfo where
  fromCoords : ℚ × ℚ
deriving DecidableEq

/-- Modelled from the spec: `timezone_from_coords` of `helpers.py` (not among
the sources) derives the timezone once from the coordinates. -/
def timezone_from_coords (coords : ℚ × ℚ) : ZoneInfo :=
  ⟨coords⟩

/-- One station data dictionary, as read by `Station.__init__`,
`Station.update_sample` and `Station.update_samples`: a field per key that
the code accesses.  `date` is the instant denoted by the
`AEMET_ATTR_STATION_DATE` value (already parsed, see the module comment);
`pressure_sea` is `none` when the `AEMET_ATTR_STATION_PRESSURE_SEA` key is
absent from the dictionary. -/
structure StationData where
  altitude : ℚ
  latitude : ℚ
  longitude : ℚ
  distance : ℚ
  idema : String
  location : String
  date : ℤ
  dew_point : ℚ
  humidity : ℚ
  precipitation : ℚ
  pressure_sea : Option ℚ
  pressure : ℚ
  temperature : ℚ
  temperature_max : ℚ
  temperature_min : ℚ
  wind_direction : ℚ
  wind_speed : ℚ
  wind_speed_max : ℚ
deriving DecidableEq

/-- The `Station` object of `station.py`: identity attributes set by
`__init__` plus the current-sample attributes set by `update_sample`.
`datetime` is the `_datetime` attribute, as an instant (see module
comment). -/
structure Station where
  altitude : ℚ
  coords : ℚ × ℚ
  distance : ℚ
  id : String
  name : String
  zoneinfo : ZoneInfo
  datetime : ℤ
  dew_point : ℚ
  humidity : ℚ
  precipitation : ℚ
  pressure : ℚ
  temp : ℚ
  temp_max : ℚ
  temp_min : ℚ
  wind_direction : ℚ
  wind_speed : ℚ
  wind_speed_max : ℚ
deriving DecidableEq

/-- `Station.update_sample` (station.py lines 164-181): overwrites the
current-sample attributes from the dictionary.  The `_datetime` attribute is
set to `station_dt.astimezone(self.get_timezone())`, which denotes the same
instant as `station_dt`, hence `datetime := data.date`.  The pressure
attribute prefers the sea-level pressure key when it is present. -/
def Station.update_sample (st : Station) (data : StationData) : Station :=
  { st with
    datetime := data.date
    dew_point := data.dew_point
    humidity := data.humidity
    precipitation := data.precipitation
    pressure :=
      match data.pressure_sea with
      | some p => p
      | none => data.pressure
    temp := data.temperature
    temp_max := data.temperature_max
    temp_min := data.temperature_min
    wind_direction := data.wind_direction
    wind_speed := data.wind_speed
    wind_speed_max := data.wind_speed_max }

/-- `Station.__init__` (station.py lines 72-85): sets the identity
attributes from the dictionary, derives the timezone from the coordinates,
and fills the sample attributes via `update_sample`.  In Python the sample
attributes are simply unset before that call; here they are given
placeholder zeros, all of which `update_sample` immediately overwrites. -/
def Station.init (data : StationData) : Station :=
  Station.update_sample
    { altitude := data.altitude
      coords := (data.latitude, data.longitude)
      distance := data.distance
      id := data.idema
      name := data.location
      zoneinfo := timezone_from_coords (data.latitude, data.longitude)
      datetime := 0
      dew_point := 0
      humidity := 0
      precipitation := 0
      pressure := 0
      temp := 0
      temp_max := 0
      temp_min := 0
      wind_direction := 0
      wind_speed := 0
      wind_speed_max := 0 }
    data

/-- `Station.get_datetime` (station.py lines 95-97). -/
def Station.get_datetime (st : Station) : ℤ :=
  st.datetime

/-- `Station.get_outdated` (station.py lines 119-122):
`cur_dt > self.get_datetime() + STATION_MAX_DELTA`.  The constant
`STATION_MAX_DELTA` lives in `const.py`, which is not among the sources, so
the staleness window is a parameter `delta`; `now` is the value of
`get_current_datetime()`. -/
def Station.get_outdated (st : Station) (delta now : ℤ) : Bool :=
  decide (now > st.get_datetime + delta)

/-- Python `round` to an integer: round half to even (banker's rounding). -/
def pyRoundInt (q : ℚ) : ℤ :=
  if q - ⌊q⌋ < 1 / 2 then ⌊q⌋
  else if q - ⌊q⌋ > 1 / 2 then ⌊q⌋ + 1
  else if ⌊q⌋ % 2 = 0 then ⌊q⌋ else ⌊q⌋ + 1

/-- Python `round(x, 3)`: round half to even at the third decimal. -/
def pyRound3 (q : ℚ) : ℚ :=
  (pyRoundInt (q * 1000) : ℚ) / 1000

/-- `Station.get_distance` (station.py lines 99-101):
`round(self.distance, 3)`. -/
def Station.get_distance (st : Station) : ℚ :=
  pyRound3 st.distance

/-- The scan of `Station.update_samples` (station.py lines 185-191):
`latest_dt = None; for sample in samples: if latest_dt is None or
dt > latest_dt: latest, latest_dt = sample, dt`.  In the source `latest_dt`
always equals the date of `latest`, so the pair collapses to one
accumulator. -/
def findLatestAux : Option StationData → List StationData → Option StationData
  | latest, [] => latest
  | none, s :: rest => findLatestAux (some s) rest
  | some cur, s :: rest =>
      if s.date > cur.date then findLatestAux (some s) rest
      else findLatestAux (some cur) rest

/-- `Station.update_samples` (station.py lines 183-196).  The argument is
the `samples[ATTR_DATA]` list; `now` is the value of
`get_current_datetime()`.  The guard is the chained comparison
`self.get_datetime() < latest_dt <= get_current_datetime()`. -/
def Station.update_samples (st : Station) (now : ℤ) (samples : List StationData) : Station :=
  match findLatestAux none samples with
  | none => st
  | some latest =>
      if st.get_datetime < latest.date ∧ latest.date ≤ now then st.update_sample latest
      else st

/-!
Nearest-candidate search.  The loop of
`AEMET.get_conventional_observation_station_by_coordinates`
(interface.py lines 204-223), shared verbatim by
`AEMET.get_climatological_values_station_by_coordinates` (lines 164-185)
and `AEMET.get_town_by_coordinates` (lines 266-283):

    station = None
    distance = API_MIN_STATION_DISTANCE_KM
    for cur_station in stations[ATTR_DATA]:
        cur_coords = (...)
        cur_distance = self.calc_distance(search_coords, cur_coords).km
        if cur_distance < distance:
            distance = cur_distance
            station = cur_station
    return station

The threshold constants `API_MIN_STATION_DISTANCE_KM` /
`API_MIN_TOWN_DISTANCE_KM` live in `const.py`, which is not among the
sources, so the threshold is a parameter, and the distance computation is
a function parameter as in the spec contract
`find_nearest(target, candidates, threshold_km, distance_fn)`.
Distances are modelled as rationals.
-/

/-- The loop body/state of the nearest-candidate scan: `best` is the
`station` variable, `best_distance` the `distance` variable. -/
def findNearestAux {α : Type} (distf : α → ℚ) :
    Option α → ℚ → List α → Option α
  | best, _best_distance, [] => best
  | best, best_distance, c :: rest =>
      if distf c < best_distance then findNearestAux distf (some c) (distf c) rest
      else findNearestAux distf best best_distance rest

/-- The nearest-candidate search: target coordinate, candidate coordinates
via `coords`, distance function `distance_fn`, threshold as initial value of
the running minimum. -/
def find_nearest {α : Type} (coords : α → ℚ × ℚ)
    (distance_fn : ℚ × ℚ → ℚ × ℚ → ℚ) (target : ℚ × ℚ)
    (threshold_km : ℚ) (candidates : List α) : Option α :=
  findNearestAux (fun c => distance_fn target (coords c)) none threshold_km candidates

/-!
REST call wrapper (`AEMET.api_call` and `AEMET.api_data`,
interface.py lines 53-127).  The HTTP transport is an external
collaborator: its outcome for one request is either a raised
`requests.exceptions.RequestException` or a response with a status code and
a body text.  `response.json()` belongs to the `requests` library: it is a
parameter `json_of`, returning `none` when the body is not valid JSON (in
which case Python raises).  A result of the wrapper is either a normal
return value (Python `None` modelled as `Option.none`) or an exception
escaping the wrapper.
-/

/-- A JSON value. -/
inductive Json where
  | null : Json
  | bool : Bool → Json
  | num : ℚ → Json
  | str : String → Json
  | arr : List Json → Json
  | obj : List (String × Json) → Json

/-- Python `key in json_response` for a JSON object (the API responses
guarded by this test are objects). -/
def Json.member (j : Json) (key : String) : Bool :=
  match j with
  | .obj kvs => kvs.any fun kv => kv.1 == key
  | _ => false

/-- Python `json_response[key]` for a JSON object; only evaluated under a
`member` guard in the source, so the fallback is never reached there. -/
def Json.get (j : Json) (key : String) : Json :=
  match j with
  | .obj kvs =>
      match kvs.find? (fun kv => kv.1 == key) with
      | some kv => kv.2
      | none => .null
  | _ => .null

/-- Python truthiness of a JSON value (`if data:`). -/
def Json.truthy : Json → Bool
  | .null => false
  | .bool b => b
  | .num q => !(q == 0)
  | .str s => !(s == "")
  | .arr l => !l.isEmpty
  | .obj l => !l.isEmpty

/-- Outcome of one HTTP request by the external collaborator. -/
inductive HttpOutcome where
  | exn : String → HttpOutcome
  | resp : ℕ → String → HttpOutcome

/-- Result of an API wrapper call: a normal return (Python `None` is
`value none`) or an exception escaping the wrapper. -/
inductive ApiResult where
  | raised : String → ApiResult
  | value : Option Json → ApiResult

/-- `AEMET.api_data` (interface.py lines 99-127): a raised request
exception is caught and becomes `None`; a status other than 200 becomes
`None`; an empty body text becomes `None`; otherwise the body is parsed
(raising past the wrapper when it is not JSON). -/
def api_data (json_of : String → Option Json) (r : HttpOutcome) : ApiResult :=
  match r with
  | .exn _ => .value none
  | .resp status text =>
      if status ≠ 200 then .value none
      else if text = "" then .value none
      else
        match json_of text with
        | none => .raised "JSONDecodeError"
        | some j => .value (some j)

/-- `AEMET.api_call` (interface.py lines 53-96): same failure handling as
`api_data` for the first request; then, when `fetch_data` is set and the
response object has a `datos` key (`AEMET_ATTR_DATA`), the URL under that
key is fetched via `api_data` (`fetch` gives the collaborator's outcome for
it) and, when the fetched data is truthy, the response and data are wrapped
into one object under the `response` / `data` keys (`ATTR_RESPONSE` /
`ATTR_DATA`). -/
def api_call (json_of : String → Option Json) (fetch : Json → HttpOutcome)
    (r : HttpOutcome) (fetch_data : Bool) : ApiResult :=
  match r with
  | .exn _ => .value none
  | .resp status text =>
      if status ≠ 200 then .value none
      else if text = "" then .value none
      else
        match json_of text with
        | none => .raised "JSONDecodeError"
        | some j =>
            if fetch_data && j.member "datos" then
              match api_data json_of (fetch (j.get "datos")) with
              | .raised e => .raised e
              | .value none => .value (some j)
              | .value (some d) =>
                  if d.truthy then
                    .value (some (.obj [("response", j), ("data", d)]))
                  else .value (some j)
            else .value (some j)

/-!
Geographic distance (`AEMET.calc_distance`, interface.py lines 136-142).
The source dispatches on the `dist_hp` flag between
`geopy.distance.great_circle` and `geopy.distance.geodesic`; the geopy
backends themselves are external-collaborator code, not among the sources.
Modelled from the spec: "Great-circle distance: shortest-path distance on a
perfect sphere approximation of the surface", "Geodesic distance: distance
on an ellipsoidal model of the surface".  Both are instances of the
intrinsic (shortest-path) metric on a spheroid of revolution with
equatorial radius `a` and polar radius `b` (kilometres): the infimum, over
continuous parameter paths joining the two geodetic coordinates, of the
path length on the surface, path length being the total variation of the
path's image in space.  The sphere radius 6371.009 km and the WGS-84 semi
axes are geopy's constants.
-/

open scoped ENNReal

/-- Point of the spheroid with semi axes `a` (equatorial) and `b` (polar)
at geodetic latitude/longitude given in degrees: the standard geodetic
to Cartesian conversion with prime-vertical radius
`N = a / sqrt (1 - e² sin² φ)`. -/
noncomputable def spheroidPoint (a b : ℝ) (p : ℝ × ℝ) : ℝ × ℝ × ℝ :=
  let φ := p.1 * Real.pi / 180
  let lam := p.2 * Real.pi / 180
  let e2 := 1 - b ^ 2 / a ^ 2
  let n := a / Real.sqrt (1 - e2 * Real.sin φ ^ 2)
  (n * Real.cos φ * Real.cos lam, n * Real.cos φ * Real.sin lam,
    n * (1 - e2) * Real.sin φ)

/-- Intrinsic distance on the spheroid with semi axes `a`, `b` between two
geodetic coordinates: infimum of surface path lengths, a path length being
the total variation over the unit interval of the path's spatial image. -/
noncomputable def surfaceDist (a b : ℝ) (p q : ℝ × ℝ) : ℝ≥0∞ :=
  ⨅ γ : {f : ℝ → ℝ × ℝ // Continuous f ∧ f 0 = p ∧ f 1 = q},
    eVariationOn (spheroidPoint a b ∘ γ.1) (Set.Icc 0 1)

/-- Modelled from the spec: `geopy.distance.great_circle` — shortest-path
distance in kilometres on the sphere of radius 6371.009 km. -/
noncomputable def great_circle (p q : ℝ × ℝ) : ℝ :=
  (surfaceDist 6371.009 6371.009 p q).toReal

/-- Modelled from the spec: `geopy.distance.geodesic` — shortest-path
distance in kilometres on the WGS-84 ellipsoid. -/
noncomputable def geodesic (p q : ℝ × ℝ) : ℝ :=
  (surfaceDist 6378.137 6356.752314245 p q).toReal

/-- `AEMET.calc_distance` (interface.py lines 136-142): dispatch on the
`dist_hp` flag between the geodesic and the great-circle model. -/
noncomputable def calc_distance (dist_hp : Bool) (start stop : ℝ × ℝ) : ℝ :=
  if dist_hp then geodesic start stop else great_circle start stop

/-!
Concrete values used by the closed witness/counterexample statements.
-/

/-- A concrete station data dictionary. -/
def exData : StationData :=
  { altitude := 7
    latitude := 40
    longitude := -3
    distance := 1
    idema := "3195"
    location := "MADRID"
    date := 0
    dew_point := 5
    humidity := 50
    precipitation := 0
    pressure_sea := none
    pressure := 994
    temperature := 20
    temperature_max := 25
    temperature_min := 15
    wind_direction := 90
    wind_speed := 3
    wind_speed_max := 6 }

/-- A concrete station, built from `exData`. -/
def exStation : Station :=
  Station.init exData

/-- One post-construction update of a `Station`: a `update_sample` call or a
`update_samples` call (with the value of `get_current_datetime()` and the
`samples[ATTR_DATA]` list). -/
inductive StationUpdate where
  | sample : StationData → StationUpdate
  | samples : ℤ → List StationData → StationUpdate

/-- Apply one `StationUpdate` to a station. -/
def applyUpdate (st : Station) : StationUpdate → Station
  | .sample d => st.update_sample d
  | .samples now l => st.update_samples now l

/-- A concrete samples list with timestamps `[t0, t2, t1]` for
`t0 = 0 < t1 = 1 < t2 = 2`. -/
def exSamples : List StationData :=
  [exData, { exData with date := 2, temperature := 21 },
    { exData with date := 1, temperature := 19 }]

/-- A concrete distance function for closed witness statements: the
distance of a candidate is its first component. -/
def exDistanceFn : ℚ × ℚ → ℚ × ℚ → ℚ :=
  fun _ c => c.1

/-- Concrete candidates at the spec-example distances `[30, 5, 12]`
(under `exDistanceFn`). -/
def exCandidates : List (ℚ × ℚ) :=
  [(30, 0), (5, 0), (12, 0)]

/-!
Theorems.
-/

/-- Rounding an integer-scaled rational moves it by at most one half. -/
theorem pyRoundInt_close (q : ℚ) : |(pyRoundInt q : ℚ) - q| ≤ 1 / 2 := by
  have h0 : (⌊q⌋ : ℚ) ≤ q := Int.floor_le q
  have h1 : q < ⌊q⌋ + 1 := Int.lt_floor_add_one q
  unfold pyRoundInt
  split_ifs with hlt hgt heven <;>
    · rw [abs_le]; constructor <;> push_cast <;> linarith

/-- Rounding at the third decimal moves a rational by at most `1 / 2000`. -/
theorem pyRound3_close (q : ℚ) : |pyRound3 q - q| ≤ 1 / 2000 := by
  have h := pyRoundInt_close (q * 1000)
  unfold pyRound3
  rw [abs_le] at h ⊢
  constructor <;> linarith [h.1, h.2]

/-- C4: `get_outdated` is true exactly when `now` strictly exceeds the
current sample timestamp plus the staleness window `delta`
(`STATION_MAX_DELTA`), and in particular is false when `now` equals
`timestamp + delta`. -/
theorem claim_C4_get_outdated (st : Station) (delta now : ℤ) :
    (st.get_outdated delta now = true ↔ st.datetime + delta < now) ∧
    st.get_outdated delta (st.datetime + delta) = false := by
  constructor
  · simp [Station.get_outdated, Station.get_datetime, gt_iff_lt]
  · simp [Station.get_outdated, Station.get_datetime]

/-- C5 (counterexample): `update_sample` does not overwrite the
distance-from-query-point attribute: updating `exStation` (whose stored
distance is `1`) from a sample carrying distance `2` leaves the stored
distance at `1`, not `2`. -/
theorem claim_C5_counterexample :
    (exStation.update_sample { exData with distance := 2, date := 1 }).distance = 1 ∧
    ({ exData with distance := 2, date := 1 } : StationData).distance = 2 ∧
    (exStation.update_sample { exData with distance := 2, date := 1 }).distance ≠
      ({ exData with distance := 2, date := 1 } : StationData).distance := by
  refine ⟨rfl, rfl, ?_⟩
  intro h
  exact absurd h (by decide)

/-- C5 (amended): `update_sample` unconditionally overwrites the
current-sample attributes — timestamp, temperature, temperature max/min,
dew point, humidity, precipitation, pressure (preferring the sea-level
field), wind direction/speed/speed-max — from the given sample's fields,
while the distance-from-query-point attribute is left unchanged. -/
theorem claim_C5_update_sample (st : Station) (d : StationData) :
    (st.update_sample d).datetime = d.date ∧
    (st.update_sample d).temp = d.temperature ∧
    (st.update_sample d).temp_max = d.temperature_max ∧
    (st.update_sample d).temp_min = d.temperature_min ∧
    (st.update_sample d).dew_point = d.dew_point ∧
    (st.update_sample d).humidity = d.humidity ∧
    (st.update_sample d).precipitation = d.precipitation ∧
    (st.update_sample d).pressure =
      (match d.pressure_sea with
        | some p => p
        | none => d.pressure) ∧
    (st.update_sample d).wind_direction = d.wind_direction ∧
    (st.update_sample d).wind_speed = d.wind_speed ∧
    (st.update_sample d).wind_speed_max = d.wind_speed_max ∧
    (st.update_sample d).distance = st.distance :=
  ⟨rfl, rfl, rfl, rfl, rfl, rfl, rfl, rfl, rfl, rfl, rfl, rfl⟩

/-- C9: the pressure attribute is set from the sea-level pressure field
when that field is present, and from the surface station-pressure field
only when it is absent. -/
theorem claim_C9_pressure (st : Station) (d : StationData) :
    (∀ p, d.pressure_sea = some p → (st.update_sample d).pressure = p) ∧
    (d.pressure_sea = none → (st.update_sample d).pressure = d.pressure) := by
  constructor
  · intro p hp
    simp [Station.update_sample, hp]
  · intro hp
    simp [Station.update_sample, hp]

/-- C9 witness: concrete evaluations of both cases of `claim_C9_pressure`. -/
theorem claim_C9_witness :
    (exStation.update_sample { exData with pressure_sea := some 1013 }).pressure = 1013 ∧
    (exStation.update_sample exData).pressure = 994 := by
  constructor
  · exact (claim_C9_pressure exStation { exData with pressure_sea := some 1013 }).1 1013 rfl
  · exact (claim_C9_pressure exStation exData).2 rfl

/-- C10: `get_distance` returns the stored distance rounded to three
decimals (half to even): the result is an integer number of thousandths
within `1 / 2000` of the stored value, while the stored attribute itself is
not modified — on a concrete station whose stored distance is `1.2345`, the
accessor returns a value different from the stored one. -/
theorem claim_C10_get_distance (st : Station) :
    st.get_distance = pyRound3 st.distance ∧
    (∃ n : ℤ, st.get_distance = (n : ℚ) / 1000) ∧
    |st.get_distance - st.distance| ≤ 1 / 2000 ∧
    (Station.init { exData with distance := 12345 / 10000 }).get_distance ≠
      (Station.init { exData with distance := 12345 / 10000 }).distance := by
  refine ⟨rfl, ⟨pyRoundInt (st.distance * 1000), rfl⟩, pyRound3_close st.distance, ?_⟩
  show pyRound3 ((12345 : ℚ) / 10000) ≠ (12345 : ℚ) / 10000
  have hf : ⌊((12345 : ℚ) / 10000) * 1000⌋ = 1234 := by
    rw [Int.floor_eq_iff]
    norm_num
  unfold pyRound3 pyRoundInt
  rw [hf]
  norm_num

/-- `update_samples` either leaves the station untouched or delegates to
`update_sample`. -/
theorem update_samples_cases (st : Station) (now : ℤ) (l : List StationData) :
    st.update_samples now l = st ∨
    ∃ latest, st.update_samples now l = st.update_sample latest := by
  unfold Station.update_samples
  cases findLatestAux none l with
  | none => exact Or.inl rfl
  | some latest =>
      by_cases h : st.get_datetime < latest.date ∧ latest.date ≤ now
      · exact Or.inr ⟨latest, if_pos h⟩
      · exact Or.inl (if_neg h)

/-- Neither `update_sample` nor `update_samples` modifies the identity
attributes. -/
theorem applyUpdate_identity (st : Station) (u : StationUpdate) :
    (applyUpdate st u).id = st.id ∧ (applyUpdate st u).name = st.name ∧
    (applyUpdate st u).altitude = st.altitude ∧
    (applyUpdate st u).coords = st.coords ∧
    (applyUpdate st u).zoneinfo = st.zoneinfo := by
  cases u with
  | sample d => exact ⟨rfl, rfl, rfl, rfl, rfl⟩
  | samples now l =>
      rcases update_samples_cases st now l with h | ⟨latest, h⟩ <;>
        · simp only [applyUpdate]
          rw [h]
          exact ⟨rfl, rfl, rfl, rfl, rfl⟩

/-- C6: after any sequence of sample updates (`update_sample` or
`update_samples` calls) following construction, the identity attributes
id, name, altitude, coordinates and timezone still hold exactly the values
`__init__` gave them from the construction dictionary. -/
theorem claim_C6_identity_immutable (data : StationData) (updates : List StationUpdate) :
    (updates.foldl applyUpdate (Station.init data)).id = data.idema ∧
    (updates.foldl applyUpdate (Station.init data)).name = data.location ∧
    (updates.foldl applyUpdate (Station.init data)).altitude = data.altitude ∧
    (updates.foldl applyUpdate (Station.init data)).coords = (data.latitude, data.longitude) ∧
    (updates.foldl applyUpdate (Station.init data)).zoneinfo =
      timezone_from_coords (data.latitude, data.longitude) := by
  have step : ∀ (l : List StationUpdate) (st : Station),
      (l.foldl applyUpdate st).id = st.id ∧ (l.foldl applyUpdate st).name = st.name ∧
      (l.foldl applyUpdate st).altitude = st.altitude ∧
      (l.foldl applyUpdate st).coords = st.coords ∧
      (l.foldl applyUpdate st).zoneinfo = st.zoneinfo := by
    intro l
    induction l with
    | nil => intro st; exact ⟨rfl, rfl, rfl, rfl, rfl⟩
    | cons u rest ih =>
        intro st
        have h1 := applyUpdate_identity st u
        have h2 := ih (applyUpdate st u)
        rw [List.foldl_cons]
        exact ⟨h2.1.trans h1.1, (h2.2.1).trans h1.2.1, (h2.2.2.1).trans h1.2.2.1,
          (h2.2.2.2.1).trans h1.2.2.2.1, (h2.2.2.2.2).trans h1.2.2.2.2⟩
  have hinit := step updates (Station.init data)
  exact ⟨hinit.1, hinit.2.1, hinit.2.2.1, hinit.2.2.2.1, hinit.2.2.2.2⟩

/-- C7: on any of the three failure conditions — the request raised, the
status is not 2xx, or the body text is empty — both `api_call` and
`api_data` return Python `None` (and in particular no exception escapes
them). -/
theorem claim_C7_api_failure (json_of : String → Option Json)
    (fetch : Json → HttpOutcome) (fetch_data : Bool) (r : HttpOutcome)
    (h : (∃ e, r = .exn e) ∨
      (∃ s t, r = .resp s t ∧ ¬(200 ≤ s ∧ s ≤ 299)) ∨
      (∃ s, r = .resp s "")) :
    api_call json_of fetch r fetch_data = .value none ∧
    api_data json_of r = .value none := by
  rcases h with ⟨e, rfl⟩ | ⟨s, t, rfl, hs⟩ | ⟨s, rfl⟩
  · exact ⟨rfl, rfl⟩
  · have h200 : s ≠ 200 := by
      intro heq
      exact hs ⟨le_of_eq heq.symm, by omega⟩
    constructor <;> simp [api_call, api_data, h200]
  · by_cases h200 : s = 200
    · subst h200
      constructor <;> simp [api_call, api_data]
    · constructor <;> simp [api_call, api_data, h200]

/-- C7 witness: a concrete 404 response makes both wrappers return
`None`. -/
theorem claim_C7_witness :
    api_call (fun _ => none) (fun _ => .exn "down") (.resp 404 "Not Found") true =
      .value none ∧
    api_data (fun _ => none) (.resp 404 "Not Found") = .value none :=
  claim_C7_api_failure (fun _ => none) (fun _ => .exn "down") true
    (.resp 404 "Not Found") (Or.inr (Or.inl ⟨404, "Not Found", rfl, by omega⟩))

/-- The accumulator of the `update_samples` scan never turns back into
`None`. -/
theorem findLatestAux_some_ne_none (l : List StationData) :
    ∀ cur, findLatestAux (some cur) l ≠ none := by
  induction l with
  | nil => intro cur h; exact Option.noConfusion h
  | cons s rest ih =>
      intro cur
      show (if s.date > cur.date then findLatestAux (some s) rest
        else findLatestAux (some cur) rest) ≠ none
      split_ifs <;> apply ih

/-- The `update_samples` scan returns `None` exactly on the empty list. -/
theorem findLatest_none_iff (l : List StationData) :
    findLatestAux none l = none ↔ l = [] := by
  cases l with
  | nil => simp [findLatestAux]
  | cons s rest =>
      constructor
      · intro h
        exact absurd h (findLatestAux_some_ne_none rest s)
      · intro h
        exact List.noConfusion h

/-- Invariant of the `update_samples` scan: starting from accumulator
`cur`, the result is either `cur` itself, dominating every scanned date, or
the first element of the list whose date strictly exceeds `cur`'s and every
date before it, and is not exceeded by any date after it. -/
theorem findLatestAux_some_eq (l : List StationData) :
    ∀ cur latest, findLatestAux (some cur) l = some latest →
    (latest = cur ∧ ∀ t ∈ l, t.date ≤ cur.date) ∨
    (∃ l₁ l₂, l = l₁ ++ latest :: l₂ ∧ cur.date < latest.date ∧
      (∀ t ∈ l₁, t.date < latest.date) ∧ (∀ t ∈ l₂, t.date ≤ latest.date)) := by
  induction l with
  | nil =>
      intro cur latest h
      exact Or.inl ⟨(Option.some.inj h).symm, by simp⟩
  | cons s rest ih =>
      intro cur latest h
      rw [show findLatestAux (some cur) (s :: rest) =
        (if s.date > cur.date then findLatestAux (some s) rest
          else findLatestAux (some cur) rest) from rfl] at h
      by_cases hd : s.date > cur.date
      · rw [if_pos hd] at h
        rcases ih s latest h with ⟨rfl, hall⟩ | ⟨l₁, l₂, rfl, hlt, h1, h2⟩
        · refine Or.inr ⟨[], rest, rfl, hd, by simp, hall⟩
        · refine Or.inr ⟨s :: l₁, l₂, rfl, lt_trans hd hlt, ?_, h2⟩
          intro t ht
          rcases List.mem_cons.mp ht with rfl | ht
          · exact hlt
          · exact h1 t ht
      · rw [if_neg hd] at h
        have hs : s.date ≤ cur.date := le_of_not_lt hd
        rcases ih cur latest h with ⟨rfl, hall⟩ | ⟨l₁, l₂, rfl, hlt, h1, h2⟩
        · refine Or.inl ⟨rfl, ?_⟩
          intro t ht
          rcases List.mem_cons.mp ht with rfl | ht
          · exact hs
          · exact hall t ht
        · refine Or.inr ⟨s :: l₁, l₂, rfl, hlt, ?_, h2⟩
          intro t ht
          rcases List.mem_cons.mp ht with rfl | ht
          · exact lt_of_le_of_lt hs hlt
          · exact h1 t ht

/-- The `update_samples` scan selects the first sample of maximal date:
every sample before it in arrival order has a strictly smaller date, every
sample after it a date no larger. -/
theorem findLatest_first_max (l : List StationData) (latest : StationData)
    (h : findLatestAux none l = some latest) :
    ∃ l₁ l₂, l = l₁ ++ latest :: l₂ ∧ (∀ t ∈ l₁, t.date < latest.date) ∧
      (∀ t ∈ l₂, t.date ≤ latest.date) := by
  cases l with
  | nil => exact Option.noConfusion h
  | cons s rest =>
      rw [show findLatestAux none (s :: rest) = findLatestAux (some s) rest from rfl] at h
      rcases findLatestAux_some_eq rest s latest h with ⟨rfl, hall⟩ | ⟨l₁, l₂, rfl, hlt, h1, h2⟩
      · exact ⟨[], rest, rfl, by simp, hall⟩
      · refine ⟨s :: l₁, l₂, rfl, ?_, h2⟩
        intro t ht
        rcases List.mem_cons.mp ht with rfl | ht
        · exact hlt
        · exact h1 t ht

/-- C1: `update_samples` selects the first sample of maximal timestamp by
linear scan (strict comparison, first maximal wins ties); it applies that
sample via `update_sample` exactly when its timestamp is strictly newer
than the record's current timestamp and not later than `now`, and leaves
the record completely unchanged otherwise — in particular on the empty
sequence. -/
theorem claim_C1_update_samples (st : Station) (now : ℤ) (samples : List StationData) :
    (findLatestAux none samples = none ↔ samples = []) ∧
    (samples = [] → st.update_samples now samples = st) ∧
    ∀ latest, findLatestAux none samples = some latest →
      (∃ l₁ l₂, samples = l₁ ++ latest :: l₂ ∧
        (∀ t ∈ l₁, t.date < latest.date) ∧ (∀ t ∈ l₂, t.date ≤ latest.date)) ∧
      (st.datetime < latest.date ∧ latest.date ≤ now →
        st.update_samples now samples = st.update_sample latest) ∧
      (¬(st.datetime < latest.date ∧ latest.date ≤ now) →
        st.update_samples now samples = st) := by
  refine ⟨findLatest_none_iff samples, ?_, ?_⟩
  · rintro rfl
    rfl
  · intro latest h
    refine ⟨findLatest_first_max samples latest h, ?_, ?_⟩
    · intro hc
      unfold Station.update_samples
      rw [h]
      exact if_pos hc
    · intro hc
      unfold Station.update_samples
      rw [h]
      exact if_neg hc

/-- C1 witness: with samples timestamped `[0, 2, 1]`, current record
timestamp `0` and `now = 3`, the record is updated to the `t = 2` sample;
with a single sample timestamped `5` and `now = 0` (future timestamp), the
record is unchanged. -/
theorem claim_C1_witness :
    exStation.update_samples 3 exSamples =
      exStation.update_sample { exData with date := 2, temperature := 21 } ∧
    exStation.update_samples 0 [{ exData with date := 5 }] = exStation := by
  constructor
  · exact ((claim_C1_update_samples exStation 3 exSamples).2.2
      { exData with date := 2, temperature := 21 } rfl).2.1 ⟨by decide, by decide⟩
  · exact ((claim_C1_update_samples exStation 0 [{ exData with date := 5 }]).2.2
      { exData with date := 5 } rfl).2.2 (by decide)

/-- Invariant of the nearest-candidate scan: starting from running best
`best` at running minimum `bd`, the result (when some candidate is
returned) is either `best` itself with no scanned distance below `bd`, or
the first scanned candidate whose distance is below `bd` and below every
distance before it, and not above any distance after it. -/
theorem findNearestAux_some {α : Type} (distf : α → ℚ) (l : List α) :
    ∀ best bd c, findNearestAux distf best bd l = some c →
    (best = some c ∧ ∀ t ∈ l, bd ≤ distf t) ∨
    (∃ l₁ l₂, l = l₁ ++ c :: l₂ ∧ distf c < bd ∧
      (∀ t ∈ l₁, distf c < distf t) ∧ (∀ t ∈ l₂, distf c ≤ distf t)) := by
  induction l with
  | nil =>
      intro best bd c h
      exact Or.inl ⟨h, by simp⟩
  | cons s rest ih =>
      intro best bd c h
      rw [show findNearestAux distf best bd (s :: rest) =
        (if distf s < bd then findNearestAux distf (some s) (distf s) rest
          else findNearestAux distf best bd rest) from rfl] at h
      by_cases hd : distf s < bd
      · rw [if_pos hd] at h
        rcases ih (some s) (distf s) c h with ⟨heq, hall⟩ | ⟨l₁, l₂, rfl, hlt, h1, h2⟩
        · cases Option.some.inj heq
          exact Or.inr ⟨[], rest, rfl, hd, by simp, hall⟩
        · refine Or.inr ⟨s :: l₁, l₂, rfl, lt_trans hlt hd, ?_, h2⟩
          intro t ht
          rcases List.mem_cons.mp ht with rfl | ht
          · exact hlt
          · exact h1 t ht
      · rw [if_neg hd] at h
        have hs : bd ≤ distf s := le_of_not_lt hd
        rcases ih best bd c h with ⟨heq, hall⟩ | ⟨l₁, l₂, rfl, hlt, h1, h2⟩
        · refine Or.inl ⟨heq, ?_⟩
          intro t ht
          rcases List.mem_cons.mp ht with rfl | ht
          · exact hs
          · exact hall t ht
        · refine Or.inr ⟨s :: l₁, l₂, rfl, hlt, ?_, h2⟩
          intro t ht
          rcases List.mem_cons.mp ht with rfl | ht
          · exact lt_of_lt_of_le hlt hs
          · exact h1 t ht

/-- When every remaining distance is at least the running minimum and the
running best is `None`, the nearest-candidate scan returns `None`. -/
theorem findNearestAux_none {α : Type} (distf : α → ℚ) (l : List α) :
    ∀ bd, (∀ t ∈ l, bd ≤ distf t) → findNearestAux distf none bd l = none := by
  induction l with
  | nil => intro bd _; rfl
  | cons s rest ih =>
      intro bd h
      rw [show findNearestAux distf none bd (s :: rest) =
        (if distf s < bd then findNearestAux distf (some s) (distf s) rest
          else findNearestAux distf none bd rest) from rfl]
      rw [if_neg (not_lt.mpr (h s (List.mem_cons_self s rest)))]
      exact ih bd fun t ht => h t (List.mem_cons_of_mem s ht)

/-- C2: a candidate returned by the nearest-candidate search has distance
strictly below the threshold, and is the first candidate in list order at
the minimal distance: every earlier candidate is strictly farther, no later
candidate is strictly nearer (so the first of several tied minimal
candidates wins, and a candidate exactly at the threshold is never
returned). -/
theorem claim_C2_find_nearest {α : Type} (coords : α → ℚ × ℚ)
    (distance_fn : ℚ × ℚ → ℚ × ℚ → ℚ) (target : ℚ × ℚ) (threshold_km : ℚ)
    (candidates : List α) (c : α)
    (h : find_nearest coords distance_fn target threshold_km candidates = some c) :
    distance_fn target (coords c) < threshold_km ∧
    ∃ l₁ l₂, candidates = l₁ ++ c :: l₂ ∧
      (∀ t ∈ l₁, distance_fn target (coords c) < distance_fn target (coords t)) ∧
      (∀ t ∈ l₂, distance_fn target (coords c) ≤ distance_fn target (coords t)) := by
  unfold find_nearest at h
  rcases findNearestAux_some (fun t => distance_fn target (coords t)) candidates
      none threshold_km c h with ⟨heq, _⟩ | ⟨l₁, l₂, rfl, hlt, h1, h2⟩
  · exact Option.noConfusion heq
  · exact ⟨hlt, l₁, l₂, rfl, h1, h2⟩

/-- C2 witness: with candidates at distances `[30, 5, 12]` and threshold
`20`, the search returns the candidate at distance `5`, which is below the
threshold and minimal. -/
theorem claim_C2_witness :
    exDistanceFn (40, -3) ((5, 0) : ℚ × ℚ) < 20 ∧
    ∃ l₁ l₂, exCandidates = l₁ ++ ((5, 0) : ℚ × ℚ) :: l₂ ∧
      (∀ t ∈ l₁, exDistanceFn (40, -3) ((5, 0) : ℚ × ℚ) < exDistanceFn (40, -3) t) ∧
      (∀ t ∈ l₂, exDistanceFn (40, -3) ((5, 0) : ℚ × ℚ) ≤ exDistanceFn (40, -3) t) :=
  claim_C2_find_nearest (fun t => t) exDistanceFn (40, -3) 20 exCandidates (5, 0)
    (by decide)

/-- C3: on an empty candidate list, or when every candidate is at least as
far as the threshold, the nearest-candidate search returns `None` (it is a
total function: no error outcome exists). -/
theorem claim_C3_no_match {α : Type} (coords : α → ℚ × ℚ)
    (distance_fn : ℚ × ℚ → ℚ × ℚ → ℚ) (target : ℚ × ℚ) (threshold_km : ℚ)
    (candidates : List α)
    (h : candidates = [] ∨
      ∀ t ∈ candidates, threshold_km ≤ distance_fn target (coords t)) :
    find_nearest coords distance_fn target threshold_km candidates = none := by
  rcases h with rfl | h
  · rfl
  · exact findNearestAux_none (fun t => distance_fn target (coords t))
      candidates threshold_km h

/-- C3 witness: a single candidate at distance `50` with threshold `10`
gives no match, and so does the empty candidate list. -/
theorem claim_C3_witness :
    find_nearest (fun t => t) exDistanceFn (40, -3) 10 [((50 : ℚ), (0 : ℚ))] = none ∧
    find_nearest (fun t => t) exDistanceFn (40, -3) 10 ([] : List (ℚ × ℚ)) = none := by
  constructor
  · exact claim_C3_no_match (fun t => t) exDistanceFn (40, -3) 10 [(50, 0)]
      (Or.inr (by decide))
  · exact claim_C3_no_match (fun t => t) exDistanceFn (40, -3) 10 [] (Or.inl rfl)

/-- The intrinsic spheroid distance from a point to itself is zero: the
constant path witnesses a zero path length. -/
theorem surfaceDist_self (a b : ℝ) (p : ℝ × ℝ) : surfaceDist a b p p = 0 := by
  refine le_antisymm ?_ (zero_le _)
  have h := iInf_le
    (fun γ : {f : ℝ → ℝ × ℝ // Continuous f ∧ f 0 = p ∧ f 1 = p} =>
      eVariationOn (spheroidPoint a b ∘ γ.1) (Set.Icc 0 1))
    ⟨fun _ => p, continuous_const, rfl, rfl⟩
  refine le_trans h (le_of_eq (eVariationOn.constant_on ?_))
  intro x hx y hy
  rcases hx with ⟨u, _, hu⟩
  rcases hy with ⟨v, _, hv⟩
  rw [← hu, ← hv]
  rfl

/-- C8: under either precision setting, `calc_distance` is nonnegative and
vanishes on identical coordinates. -/
theorem claim_C8_calc_distance (dist_hp : Bool) (p q : ℝ × ℝ) :
    0 ≤ calc_distance dist_hp p q ∧ calc_distance dist_hp p p = 0 := by
  constructor
  · unfold calc_distance geodesic great_circle
    split_ifs <;> exact ENNReal.toReal_nonneg
  · unfold calc_distance geodesic great_circle
    split_ifs <;> rw [surfaceDist_self] <;> rfl
